import Mathlib

/-!
BigInt: fixed-width big numbers (`Big::BigUint`, `Big::BigInt`, `Big::BigFloat`)

A shallow embedding of the headers `BigUint.hpp`, `BigInt.hpp`, `BigFloat.hpp`
and of the parts of the C++ semantics their operators rely on (`noexcept`,
stream state), followed by the properties of the library's operators.
-/

namespace Big

/-! ## Data model -/

/-- Width in bits of one limb, `sizeof(unsigned int) * CHAR_BIT`. -/
def limbBits : Nat := 32

/-- The class `template<std::size_t N> class BigUint` of `BigUint.hpp`:
`std::array<unsigned int, N / (sizeof(unsigned int) * CHAR_BIT)> data`, the
limbs least-significant first, together with the `static_assert` on `N`. -/
structure BigUint (N : Nat) where
  data : List Nat
  static_assert : N % limbBits = 0
  size_eq : data.length = N / limbBits
  limb_lt : ∀ x ∈ data, x < 2 ^ limbBits

/-- The class `template<std::size_t N> class BigInt` of `BigInt.hpp`: the same
stored member as `BigUint`, the same `static_assert`. -/
structure BigInt (N : Nat) where
  data : List Nat
  static_assert : N % limbBits = 0
  size_eq : data.length = N / limbBits
  limb_lt : ∀ x ∈ data, x < 2 ^ limbBits

/-- The class `template<std::size_t p, int b, std::size_t r> class BigFloat` of
`BigFloat.hpp`: its only stored member is the sign flag `bool s`. -/
structure BigFloat (p : Nat) (b : Int) (r : Nat) where
  s : Bool
  deriving DecidableEq, Repr

/-! ## Comparison operators (`BigUint.hpp` 157-181) -/

/-- The `operator<` of `BigUint.hpp`: `return false; // TODO`. -/
def BigUint.operator_lt {N : Nat} (_lhs _rhs : BigUint N) : Bool := false

/-- The `operator>` of `BigUint.hpp`: `return rhs < lhs;`. -/
def BigUint.operator_gt {N : Nat} (lhs rhs : BigUint N) : Bool :=
  BigUint.operator_lt rhs lhs

/-- The `operator<=` of `BigUint.hpp`: `return !(lhs > rhs);`. -/
def BigUint.operator_le {N : Nat} (lhs rhs : BigUint N) : Bool :=
  !(BigUint.operator_gt lhs rhs)

/-- The `operator>=` of `BigUint.hpp`: `return !(lhs < rhs);`. -/
def BigUint.operator_ge {N : Nat} (lhs rhs : BigUint N) : Bool :=
  !(BigUint.operator_lt lhs rhs)

/-- The `operator==` of `BigUint.hpp`: `return false;`. -/
def BigUint.operator_eq {N : Nat} (_lhs _rhs : BigUint N) : Bool := false

/-- The `operator!=` of `BigUint.hpp`: `return !(lhs == rhs);`. -/
def BigUint.operator_ne {N : Nat} (lhs rhs : BigUint N) : Bool :=
  !(BigUint.operator_eq lhs rhs)

/-! ## Comparison operators (`BigInt.hpp` 160-184) -/

/-- The `operator<` of `BigInt.hpp`: `return false; // TODO`. -/
def BigInt.operator_lt {N : Nat} (_lhs _rhs : BigInt N) : Bool := false

/-- The `operator>` of `BigInt.hpp`: `return rhs < lhs;`. -/
def BigInt.operator_gt {N : Nat} (lhs rhs : BigInt N) : Bool :=
  BigInt.operator_lt rhs lhs

/-- The `operator<=` of `BigInt.hpp`: `return !(lhs > rhs);`. -/
def BigInt.operator_le {N : Nat} (lhs rhs : BigInt N) : Bool :=
  !(BigInt.operator_gt lhs rhs)

/-- The `operator>=` of `BigInt.hpp`: `return !(lhs < rhs);`. -/
def BigInt.operator_ge {N : Nat} (lhs rhs : BigInt N) : Bool :=
  !(BigInt.operator_lt lhs rhs)

/-- The `operator==` of `BigInt.hpp`: `return false;`. -/
def BigInt.operator_eq {N : Nat} (_lhs _rhs : BigInt N) : Bool := false

/-- The `operator!=` of `BigInt.hpp`: `return !(lhs == rhs);`. -/
def BigInt.operator_ne {N : Nat} (lhs rhs : BigInt N) : Bool :=
  !(BigInt.operator_eq lhs rhs)

/-! ## Comparison operators (`BigFloat.hpp` 138-162) -/

/-- The `operator<` of `BigFloat.hpp`: `return false; // TODO`. -/
def BigFloat.operator_lt {p : Nat} {b : Int} {r : Nat} (_lhs _rhs : BigFloat p b r) : Bool :=
  false

/-- The `operator>` of `BigFloat.hpp`: `return rhs < lhs;`. -/
def BigFloat.operator_gt {p : Nat} {b : Int} {r : Nat} (lhs rhs : BigFloat p b r) : Bool :=
  BigFloat.operator_lt rhs lhs

/-- The `operator<=` of `BigFloat.hpp`: `return !(lhs > rhs);`. -/
def BigFloat.operator_le {p : Nat} {b : Int} {r : Nat} (lhs rhs : BigFloat p b r) : Bool :=
  !(BigFloat.operator_gt lhs rhs)

/-- The `operator>=` of `BigFloat.hpp`: `return !(lhs < rhs);`. -/
def BigFloat.operator_ge {p : Nat} {b : Int} {r : Nat} (lhs rhs : BigFloat p b r) : Bool :=
  !(BigFloat.operator_lt lhs rhs)

/-- The `operator==` of `BigFloat.hpp`: `return false; // TODO`. -/
def BigFloat.operator_eq {p : Nat} {b : Int} {r : Nat} (_lhs _rhs : BigFloat p b r) : Bool :=
  false

/-- The `operator!=` of `BigFloat.hpp`: `return !(lhs == rhs);`. -/
def BigFloat.operator_ne {p : Nat} {b : Int} {r : Nat} (lhs rhs : BigFloat p b r) : Bool :=
  !(BigFloat.operator_eq lhs rhs)

/-! ## Values encoded by the limbs -/

/-- The unsigned integer a limb sequence encodes, least-significant limb first. -/
def limbsValue : List Nat → Nat
  | [] => 0
  | x :: xs => x + 2 ^ limbBits * limbsValue xs

/-- The limbs, least-significant first, of `v` cut to `k` limbs. -/
def limbsOf : Nat → Nat → List Nat
  | 0, _ => []
  | k + 1, v => v % 2 ^ limbBits :: limbsOf k (v / 2 ^ limbBits)

/-- The unsigned integer encoded by the limbs of a `BigUint<N>`. -/
def BigUint.toNat {N : Nat} (a : BigUint N) : Nat :=
  limbsValue a.data

/-- The two's-complement signed integer encoded by the limbs of a `BigInt<N>`:
the top bit of the most-significant limb is the sign bit. -/
def BigInt.toInt {N : Nat} (a : BigInt N) : Int :=
  if limbsValue a.data < 2 ^ (N - 1) then (limbsValue a.data : Int)
  else (limbsValue a.data : Int) - 2 ^ N

theorem limbsOf_length (k v : Nat) : (limbsOf k v).length = k := by
  induction k generalizing v with
  | zero => rfl
  | succ k ih => simp [limbsOf, ih]

theorem limbsOf_lt (k v : Nat) : ∀ x ∈ limbsOf k v, x < 2 ^ limbBits := by
  induction k generalizing v with
  | zero => intro x hx; simp [limbsOf] at hx
  | succ k ih =>
    intro x hx
    simp only [limbsOf, List.mem_cons] at hx
    rcases hx with rfl | hx
    · exact Nat.mod_lt _ (Nat.pow_pos (by decide))
    · exact ih _ x hx

/-! ## Concrete objects -/

/-- The `BigUint` of `k` limbs whose limbs encode `v` modulo `2 ^ (32 * k)`. -/
def BigUint.ofNat (k v : Nat) : BigUint (limbBits * k) where
  data := limbsOf k v
  static_assert := Nat.mul_mod_right _ _
  size_eq := by
    rw [limbsOf_length, Nat.mul_div_cancel_left _ (by decide : 0 < limbBits)]
  limb_lt := limbsOf_lt k v

/-- The `BigInt` of `k` limbs whose limbs encode `v` modulo `2 ^ (32 * k)`. -/
def BigInt.ofNat (k v : Nat) : BigInt (limbBits * k) where
  data := limbsOf k v
  static_assert := Nat.mul_mod_right _ _
  size_eq := by
    rw [limbsOf_length, Nat.mul_div_cancel_left _ (by decide : 0 < limbBits)]
  limb_lt := limbsOf_lt k v

/-- How many of three truth values are true. -/
def countTrue (p q r : Bool) : Nat :=
  p.toNat + q.toNat + r.toNat

/-! ## Calls, exceptions and `noexcept` -/

/-- What the caller of a C++ function observes: the call returns a value, an
exception leaves the call and reaches the caller, or the program is ended by
`std::terminate`. -/
inductive Outcome (ε α : Type) where
  | returned (v : α)
  | thrown (e : ε)
  | terminated
  deriving DecidableEq, Repr

/-- Sequencing of two evaluations: the second runs on the value of the first. -/
def Outcome.bind {ε α β : Type} (o : Outcome ε α) (f : α → Outcome ε β) : Outcome ε β :=
  match o with
  | .returned v => f v
  | .thrown e => .thrown e
  | .terminated => .terminated

/-- A function declared `noexcept`: an exception that would leave its body calls
`std::terminate` and never reaches the caller. -/
def noexcept {ε α : Type} (body : Outcome ε α) : Outcome ε α :=
  match body with
  | .thrown _ => .terminated
  | o => o

/-- What a returned `T&` denotes: the receiver `*this`, or another object. -/
inductive Referent (T : Type) where
  | receiver
  | other (v : T)

/-- The effect of a member that returns `T&`: the receiver after the call and
what the returned reference denotes. -/
structure Assigned (T : Type) where
  receiver : T
  ref : Referent T

/-- The value of the object the returned reference denotes. -/
def Assigned.result {T : Type} (r : Assigned T) : T :=
  match r.ref with
  | .receiver => r.receiver
  | .other v => v

/-- Modelled from the spec: the error taxonomy of section 7 (`DivisionByZero`,
`InvalidShiftAmount`, `ConversionFailure`), which no header declares. -/
inductive BigError where
  | DivisionByZero
  | InvalidShiftAmount
  | ConversionFailure
  deriving DecidableEq, Repr

/-! ## Members declared without a definition

`BigUint.hpp` 70-82 and `BigInt.hpp` 72-85 declare the unary and the compound
assignment operators `constexpr T& operator@=(const T& rhs) noexcept;` and give
them no body. Their bodies are parameters: a body maps the receiver and the
right operand to an outcome, throwing exceptions of some type `ε`. -/

/-- Bodies of the members `BigUint.hpp` declares and does not define. -/
structure BigUint.Members (ε : Type) (N : Nat) where
  compl : BigUint N → Outcome ε (Assigned (BigUint N))
  addAssign : BigUint N → BigUint N → Outcome ε (Assigned (BigUint N))
  subAssign : BigUint N → BigUint N → Outcome ε (Assigned (BigUint N))
  mulAssign : BigUint N → BigUint N → Outcome ε (Assigned (BigUint N))
  divAssign : BigUint N → BigUint N → Outcome ε (Assigned (BigUint N))
  modAssign : BigUint N → BigUint N → Outcome ε (Assigned (BigUint N))
  xorAssign : BigUint N → BigUint N → Outcome ε (Assigned (BigUint N))
  andAssign : BigUint N → BigUint N → Outcome ε (Assigned (BigUint N))
  orAssign : BigUint N → BigUint N → Outcome ε (Assigned (BigUint N))
  shlAssign : BigUint N → Int → Outcome ε (Assigned (BigUint N))
  shrAssign : BigUint N → Int → Outcome ε (Assigned (BigUint N))

/-- Bodies of the members `BigInt.hpp` declares and does not define. -/
structure BigInt.Members (ε : Type) (N : Nat) where
  compl : BigInt N → Outcome ε (Assigned (BigInt N))
  neg : BigInt N → Outcome ε (Assigned (BigInt N))
  addAssign : BigInt N → BigInt N → Outcome ε (Assigned (BigInt N))
  subAssign : BigInt N → BigInt N → Outcome ε (Assigned (BigInt N))
  mulAssign : BigInt N → BigInt N → Outcome ε (Assigned (BigInt N))
  divAssign : BigInt N → BigInt N → Outcome ε (Assigned (BigInt N))
  modAssign : BigInt N → BigInt N → Outcome ε (Assigned (BigInt N))
  xorAssign : BigInt N → BigInt N → Outcome ε (Assigned (BigInt N))
  andAssign : BigInt N → BigInt N → Outcome ε (Assigned (BigInt N))
  orAssign : BigInt N → BigInt N → Outcome ε (Assigned (BigInt N))
  shlAssign : BigInt N → Int → Outcome ε (Assigned (BigInt N))
  shrAssign : BigInt N → Int → Outcome ε (Assigned (BigInt N))

/-- A call `lhs @= rhs` of a member declared `noexcept`, inside
`return lhs @= rhs;` of a free operator that takes `lhs` by value and is itself
`noexcept`: the value returned is a copy of what the reference denotes. -/
def returnCompound {ε T : Type} (body : T → T → Outcome ε (Assigned T)) (lhs rhs : T) :
    Outcome ε T :=
  noexcept ((noexcept (body lhs rhs)).bind fun r => .returned r.result)

/-! ## Binary operators (`BigUint.hpp` 114-133) -/

/-- The `operator+` of `BigUint.hpp`: `return lhs += rhs;`, `lhs` by value. -/
def BigUint.operator_add {ε : Type} {N : Nat} (m : BigUint.Members ε N)
    (lhs rhs : BigUint N) : Outcome ε (BigUint N) :=
  returnCompound m.addAssign lhs rhs

/-- The `operator-` of `BigUint.hpp`: `return lhs -= rhs;`, `lhs` by value. -/
def BigUint.operator_sub {ε : Type} {N : Nat} (m : BigUint.Members ε N)
    (lhs rhs : BigUint N) : Outcome ε (BigUint N) :=
  returnCompound m.subAssign lhs rhs

/-- The `operator*` of `BigUint.hpp`: `return lhs *= rhs;`, `lhs` by value. -/
def BigUint.operator_mul {ε : Type} {N : Nat} (m : BigUint.Members ε N)
    (lhs rhs : BigUint N) : Outcome ε (BigUint N) :=
  returnCompound m.mulAssign lhs rhs

/-- The `operator/` of `BigUint.hpp`: `return lhs /= rhs;`, `lhs` by value. -/
def BigUint.operator_div {ε : Type} {N : Nat} (m : BigUint.Members ε N)
    (lhs rhs : BigUint N) : Outcome ε (BigUint N) :=
  returnCompound m.divAssign lhs rhs

/-- The `operator%` of `BigUint.hpp`: `return lhs %= rhs;`, `lhs` by value. -/
def BigUint.operator_mod {ε : Type} {N : Nat} (m : BigUint.Members ε N)
    (lhs rhs : BigUint N) : Outcome ε (BigUint N) :=
  returnCompound m.modAssign lhs rhs

/-! ## Binary operators (`BigInt.hpp` 117-136) -/

/-- The `operator+` of `BigInt.hpp`: `return lhs += rhs;`, `lhs` by value. -/
def BigInt.operator_add {ε : Type} {N : Nat} (m : BigInt.Members ε N)
    (lhs rhs : BigInt N) : Outcome ε (BigInt N) :=
  returnCompound m.addAssign lhs rhs

/-- The `operator-` of `BigInt.hpp`: `return lhs -= rhs;`, `lhs` by value. -/
def BigInt.operator_sub {ε : Type} {N : Nat} (m : BigInt.Members ε N)
    (lhs rhs : BigInt N) : Outcome ε (BigInt N) :=
  returnCompound m.subAssign lhs rhs

/-- The `operator*` of `BigInt.hpp`: `return lhs *= rhs;`, `lhs` by value. -/
def BigInt.operator_mul {ε : Type} {N : Nat} (m : BigInt.Members ε N)
    (lhs rhs : BigInt N) : Outcome ε (BigInt N) :=
  returnCompound m.mulAssign lhs rhs

/-- The `operator/` of `BigInt.hpp`: `return lhs /= rhs;`, `lhs` by value. -/
def BigInt.operator_div {ε : Type} {N : Nat} (m : BigInt.Members ε N)
    (lhs rhs : BigInt N) : Outcome ε (BigInt N) :=
  returnCompound m.divAssign lhs rhs

/-- The `operator%` of `BigInt.hpp`: `return lhs %= rhs;`, `lhs` by value. -/
def BigInt.operator_mod {ε : Type} {N : Nat} (m : BigInt.Members ε N)
    (lhs rhs : BigInt N) : Outcome ε (BigInt N) :=
  returnCompound m.modAssign lhs rhs

/-! ## Expressions of the testable properties (spec section 8) -/

/-- The expression `(a + b) - b == a` on `BigUint<N>`. -/
def BigUint.wraparound {ε : Type} {N : Nat} (m : BigUint.Members ε N)
    (a b : BigUint N) : Outcome ε Bool :=
  (BigUint.operator_add m a b).bind fun s =>
  (BigUint.operator_sub m s b).bind fun d =>
  .returned (BigUint.operator_eq d a)

/-- The expression `b * (a / b) + (a % b) == a` on `BigUint<N>`. -/
def BigUint.divisionIdentity {ε : Type} {N : Nat} (m : BigUint.Members ε N)
    (a b : BigUint N) : Outcome ε Bool :=
  (BigUint.operator_div m a b).bind fun q =>
  (BigUint.operator_mul m b q).bind fun t =>
  (BigUint.operator_mod m a b).bind fun r =>
  (BigUint.operator_add m t r).bind fun s =>
  .returned (BigUint.operator_eq s a)

/-- The expression `b * (a / b) + (a % b) == a` on `BigInt<N>`. -/
def BigInt.divisionIdentity {ε : Type} {N : Nat} (m : BigInt.Members ε N)
    (a b : BigInt N) : Outcome ε Bool :=
  (BigInt.operator_div m a b).bind fun q =>
  (BigInt.operator_mul m b q).bind fun t =>
  (BigInt.operator_mod m a b).bind fun r =>
  (BigInt.operator_add m t r).bind fun s =>
  .returned (BigInt.operator_eq s a)

/-- The value of an expression together with the value the variable `a` holds
once the expression has been evaluated. -/
structure Evaluated (T : Type) where
  value : Bool
  a : T

/-- The expression `-(-a) == a` on `BigInt<N>`. The unary `operator-` is a
non-const member returning `BigInt&`: the inner call runs on `a`, the outer
call on the object the inner call's reference denotes. -/
def BigInt.negNegEq {ε : Type} {N : Nat} (m : BigInt.Members ε N)
    (a : BigInt N) : Outcome ε (Evaluated (BigInt N)) :=
  (noexcept (m.neg a)).bind fun r1 =>
  match r1.ref with
  | .receiver =>
    (noexcept (m.neg r1.receiver)).bind fun r2 =>
    .returned ⟨BigInt.operator_eq r2.result r2.receiver, r2.receiver⟩
  | .other v =>
    (noexcept (m.neg v)).bind fun r2 =>
    .returned ⟨BigInt.operator_eq r2.result r1.receiver, r1.receiver⟩

/-- The expression `~a == -a - 1` on `BigInt<N>`, `one` being the object
`BigInt<N>(1)`. The operands of `==` are evaluated in either order
(`leftFirst`); `operator~` and the unary `operator-` are non-const members
called on `a`, the binary `operator-` copies its left operand. -/
def BigInt.complEqNegMinusOne {ε : Type} {N : Nat} (m : BigInt.Members ε N)
    (leftFirst : Bool) (one a : BigInt N) : Outcome ε (Evaluated (BigInt N)) :=
  if leftFirst then
    (noexcept (m.compl a)).bind fun r1 =>
    (noexcept (m.neg r1.receiver)).bind fun r2 =>
    (BigInt.operator_sub m r2.result one).bind fun d =>
    match r1.ref with
    | .receiver => .returned ⟨BigInt.operator_eq r2.receiver d, r2.receiver⟩
    | .other v => .returned ⟨BigInt.operator_eq v d, r2.receiver⟩
  else
    (noexcept (m.neg a)).bind fun r2 =>
    (BigInt.operator_sub m r2.result one).bind fun d =>
    (noexcept (m.compl r2.receiver)).bind fun r1 =>
    .returned ⟨BigInt.operator_eq r1.result d, r1.receiver⟩

/-! ## Stream insertion and extraction -/

/-- The state flags `std::ios_base::iostate`. -/
structure IoState where
  badbit : Bool
  failbit : Bool
  eofbit : Bool
  deriving DecidableEq, Repr

/-- The flag set `std::ios::failbit`. -/
def IoState.failbitOnly : IoState := ⟨false, true, false⟩

/-- The union `x | y` of two flag sets. -/
def IoState.union (x y : IoState) : IoState :=
  ⟨x.badbit || y.badbit, x.failbit || y.failbit, x.eofbit || y.eofbit⟩

/-- Whether `(x & y) != 0`. -/
def IoState.meets (x y : IoState) : Bool :=
  (x.badbit && y.badbit) || (x.failbit && y.failbit) || (x.eofbit && y.eofbit)

/-- A standard stream as the operators see it: the characters of its buffer
(`rdbuf()`, absent when null), its state `rdstate()` and its mask
`exceptions()`. -/
structure StdStream where
  rdbuf : Option (List Char)
  rdstate : IoState
  exceptions : IoState
  deriving DecidableEq, Repr

/-- A stream after a call, and whether the call left by throwing
`std::ios_base::failure`. -/
structure Raised where
  stream : StdStream
  failure : Bool
  deriving DecidableEq, Repr

/-- The call `basic_ios::clear(state)`: assigns `state` (with `badbit` when there
is no buffer), then throws when a flag of `exceptions()` is set. -/
def StdStream.clear (s : StdStream) (state : IoState) : Raised :=
  let st : IoState := if s.rdbuf.isSome then state else state.union ⟨true, false, false⟩
  ⟨{ s with rdstate := st }, st.meets s.exceptions⟩

/-- The call `basic_ios::setstate(state)`: `clear(rdstate() | state)`. -/
def StdStream.setstate (s : StdStream) (state : IoState) : Raised :=
  s.clear (s.rdstate.union state)

/-- A stream and a target object after `operator>>`, and whether the call left
by throwing `std::ios_base::failure`. -/
structure Extracted (T : Type) where
  is : StdStream
  obj : T
  failure : Bool

/-- The stream `operator<<` of `BigUint.hpp` 95-99: `return os;`. -/
def BigUint.operator_insert {N : Nat} (os : StdStream) (_obj : BigUint N) : StdStream := os

/-- The stream `operator>>` of `BigUint.hpp` 101-107:
`if(true) is.setstate(std::ios::failbit); return is;`. -/
def BigUint.operator_extract {N : Nat} (is : StdStream) (obj : BigUint N) :
    Extracted (BigUint N) :=
  let r := is.setstate IoState.failbitOnly
  ⟨r.stream, obj, r.failure⟩

/-- The stream `operator<<` of `BigInt.hpp` 98-102: `return os;`. -/
def BigInt.operator_insert {N : Nat} (os : StdStream) (_obj : BigInt N) : StdStream := os

/-- The stream `operator>>` of `BigInt.hpp` 104-110:
`if(true) is.setstate(std::ios::failbit); return is;`. -/
def BigInt.operator_extract {N : Nat} (is : StdStream) (obj : BigInt N) :
    Extracted (BigInt N) :=
  let r := is.setstate IoState.failbitOnly
  ⟨r.stream, obj, r.failure⟩

/-- The stream `operator<<` of `BigFloat.hpp` 97-101: `return os;`. -/
def BigFloat.operator_insert {p : Nat} {b : Int} {r : Nat} (os : StdStream)
    (_obj : BigFloat p b r) : StdStream := os

/-- The stream `operator>>` of `BigFloat.hpp` 103-109:
`if(true) is.setstate(std::ios::failbit); return is;`. -/
def BigFloat.operator_extract {p : Nat} {b : Int} {r : Nat} (is : StdStream)
    (obj : BigFloat p b r) : Extracted (BigFloat p b r) :=
  let e := is.setstate IoState.failbitOnly
  ⟨e.stream, obj, e.failure⟩

/-- Writing `a` to the stream `s` with `operator<<`, then reading the stream
back into the object `fresh` with `operator>>`. -/
def BigUint.roundTrip {N : Nat} (s : StdStream) (a fresh : BigUint N) : Extracted (BigUint N) :=
  BigUint.operator_extract (BigUint.operator_insert s a) fresh

/-- Writing `a` to the stream `s` with `operator<<`, then reading the stream
back into the object `fresh` with `operator>>`. -/
def BigInt.roundTrip {N : Nat} (s : StdStream) (a fresh : BigInt N) : Extracted (BigInt N) :=
  BigInt.operator_extract (BigInt.operator_insert s a) fresh

/-- Writing `a` to the stream `s` with `operator<<`, then reading the stream
back into the object `fresh` with `operator>>`. -/
def BigFloat.roundTrip {p : Nat} {b : Int} {r : Nat} (s : StdStream)
    (a fresh : BigFloat p b r) : Extracted (BigFloat p b r) :=
  BigFloat.operator_extract (BigFloat.operator_insert s a) fresh

/-- An empty string stream in the good state that throws on no flag. -/
def StdStream.fresh : StdStream := ⟨some [], ⟨false, false, false⟩, ⟨false, false, false⟩⟩

/-! ## The unsigned kernel as the spec describes it -/

/-- The object of the width of `a` whose limbs encode `v` modulo `2 ^ N`. -/
def BigUint.withValue {N : Nat} (a : BigUint N) (v : Nat) : BigUint N where
  data := limbsOf a.data.length v
  static_assert := a.static_assert
  size_eq := by rw [limbsOf_length]; exact a.size_eq
  limb_lt := limbsOf_lt _ _

/-- A member body that leaves `v` in the receiver and returns `*this`. -/
def BigUint.assign {N : Nat} (a : BigUint N) (v : Nat) :
    Outcome BigError (Assigned (BigUint N)) :=
  .returned ⟨a.withValue v, .receiver⟩

/-- Modelled from the spec: the bodies of the members `BigUint.hpp` 70-82
declares and does not define, after section 4.1: `add`, `sub` and `mul` wrap
modulo `2 ^ N`; `div` and `mod` fail with `DivisionByZero` when the divisor is
zero and are otherwise the unsigned quotient and remainder; the bitwise operators
work limb-wise; shifts are logical, fail with `InvalidShiftAmount` on a negative
amount and yield zero for an amount of `N` or more. -/
def BigUint.specMembers (N : Nat) : BigUint.Members BigError N where
  compl := fun a => a.assign (2 ^ N - 1 - a.toNat % 2 ^ N)
  addAssign := fun a b => a.assign (a.toNat + b.toNat)
  subAssign := fun a b => a.assign (a.toNat + (2 ^ N - b.toNat % 2 ^ N))
  mulAssign := fun a b => a.assign (a.toNat * b.toNat)
  divAssign := fun a b =>
    if b.toNat = 0 then .thrown .DivisionByZero else a.assign (a.toNat / b.toNat)
  modAssign := fun a b =>
    if b.toNat = 0 then .thrown .DivisionByZero else a.assign (a.toNat % b.toNat)
  xorAssign := fun a b => a.assign (a.toNat ^^^ b.toNat)
  andAssign := fun a b => a.assign (a.toNat &&& b.toNat)
  orAssign := fun a b => a.assign (a.toNat ||| b.toNat)
  shlAssign := fun a k =>
    if k < 0 then .thrown .InvalidShiftAmount
    else if (N : Int) ≤ k then a.assign 0
    else a.assign (a.toNat * 2 ^ k.toNat)
  shrAssign := fun a k =>
    if k < 0 then .thrown .InvalidShiftAmount
    else if (N : Int) ≤ k then a.assign 0
    else a.assign (a.toNat / 2 ^ k.toNat)

/-! ## The signed layer as the spec describes it -/

/-- The object of the width of `a` whose limbs are the two's-complement
encoding of `v` modulo `2 ^ N`. -/
def BigInt.withValue {N : Nat} (a : BigInt N) (v : Int) : BigInt N where
  data := limbsOf a.data.length (v % 2 ^ N).toNat
  static_assert := a.static_assert
  size_eq := by rw [limbsOf_length]; exact a.size_eq
  limb_lt := limbsOf_lt _ _

/-- A member body that leaves `v` in the receiver and returns `*this`. -/
def BigInt.assign {N : Nat} (a : BigInt N) (v : Int) :
    Outcome BigError (Assigned (BigInt N)) :=
  .returned ⟨a.withValue v, .receiver⟩

/-- Modelled from the spec: the bodies of the members `BigInt.hpp` 72-85
declares and does not define, after sections 3 and 4.2: negation is
complement-plus-one; `add`, `sub` and `mul` wrap; `div` truncates toward zero
and `mod` takes the sign of the dividend, both failing with `DivisionByZero`
on a zero divisor; the bitwise operators work limb-wise; the left shift is
the unsigned one and the right shift is arithmetic. -/
def BigInt.specMembers (N : Nat) : BigInt.Members BigError N where
  compl := fun a => a.assign (-a.toInt - 1)
  neg := fun a => a.assign (-a.toInt)
  addAssign := fun a b => a.assign (a.toInt + b.toInt)
  subAssign := fun a b => a.assign (a.toInt - b.toInt)
  mulAssign := fun a b => a.assign (a.toInt * b.toInt)
  divAssign := fun a b =>
    if b.toInt = 0 then .thrown .DivisionByZero else a.assign (Int.tdiv a.toInt b.toInt)
  modAssign := fun a b =>
    if b.toInt = 0 then .thrown .DivisionByZero else a.assign (Int.tmod a.toInt b.toInt)
  xorAssign := fun a b => a.assign (limbsValue a.data ^^^ limbsValue b.data : Nat)
  andAssign := fun a b => a.assign (limbsValue a.data &&& limbsValue b.data : Nat)
  orAssign := fun a b => a.assign (limbsValue a.data ||| limbsValue b.data : Nat)
  shlAssign := fun a k =>
    if k < 0 then .thrown .InvalidShiftAmount
    else if (N : Int) ≤ k then a.assign 0
    else a.assign (a.toInt * 2 ^ k.toNat)
  shrAssign := fun a k =>
    if k < 0 then .thrown .InvalidShiftAmount
    else a.assign (a.toInt / 2 ^ k.toNat)

/-- The `BigInt` of `k` limbs that encodes the signed value `v`. -/
def BigInt.ofInt (k : Nat) (v : Int) : BigInt (limbBits * k) :=
  BigInt.ofNat k (v % 2 ^ (limbBits * k)).toNat

/-- The result of an expression as an optional object, for inspection. -/
def Outcome.limbs {ε : Type} {N : Nat} (o : Outcome ε (BigUint N)) : Option (List Nat) :=
  match o with
  | .returned v => some v.data
  | _ => none

/-! ## Limb-wise complement and negation -/

/-- The all-ones limb, `UINT_MAX`. -/
def limbMax : Nat := 2 ^ limbBits - 1

/-- Modelled from the spec: the limb-wise complement of a limb sequence, which
is what section 4.1 asks of `operator~` ("limb-wise, no carry propagation"). -/
def complLimbs (xs : List Nat) : List Nat :=
  xs.map fun x => limbMax - x

/-- Modelled from the spec: a limb sequence plus one, the carry rippling upward
and lost at the top (section 4.1, increment wraps at the boundary). -/
def incLimbs : List Nat → List Nat
  | [] => []
  | x :: xs => if x = limbMax then 0 :: incLimbs xs else (x + 1) :: xs

theorem complLimbs_length (xs : List Nat) : (complLimbs xs).length = xs.length := by
  simp [complLimbs]

theorem complLimbs_lt (xs : List Nat) : ∀ x ∈ complLimbs xs, x < 2 ^ limbBits := by
  intro x hx
  simp only [complLimbs, List.mem_map] at hx
  obtain ⟨y, _, rfl⟩ := hx
  have h : 0 < 2 ^ limbBits := Nat.pow_pos (by decide)
  unfold limbMax
  omega

theorem incLimbs_length (xs : List Nat) : (incLimbs xs).length = xs.length := by
  induction xs with
  | nil => rfl
  | cons x xs ih =>
    by_cases h : x = limbMax <;> simp [incLimbs, h, ih]

theorem incLimbs_lt (xs : List Nat) (hxs : ∀ x ∈ xs, x < 2 ^ limbBits) :
    ∀ x ∈ incLimbs xs, x < 2 ^ limbBits := by
  induction xs with
  | nil => intro x hx; simp [incLimbs] at hx
  | cons y ys ih =>
    have hy : y < 2 ^ limbBits := hxs y (List.mem_cons_self _ _)
    have hys : ∀ x ∈ ys, x < 2 ^ limbBits := fun x hx => hxs x (List.mem_cons_of_mem _ hx)
    intro x hx
    by_cases h : y = limbMax
    · simp only [incLimbs, h, if_true, List.mem_cons] at hx
      rcases hx with rfl | hx
      · exact Nat.pow_pos (by decide)
      · exact ih hys x hx
    · simp only [incLimbs, h, if_false, List.mem_cons] at hx
      rcases hx with rfl | hx
      · unfold limbMax at h
        omega
      · exact hys x hx

/-- The object whose limbs are the complements of the limbs of `a`. -/
def BigUint.complement {N : Nat} (a : BigUint N) : BigUint N where
  data := complLimbs a.data
  static_assert := a.static_assert
  size_eq := by rw [complLimbs_length]; exact a.size_eq
  limb_lt := complLimbs_lt a.data

/-- The object whose limbs are the complements of the limbs of `a`. -/
def BigInt.complement {N : Nat} (a : BigInt N) : BigInt N where
  data := complLimbs a.data
  static_assert := a.static_assert
  size_eq := by rw [complLimbs_length]; exact a.size_eq
  limb_lt := complLimbs_lt a.data

/-- The object whose limbs are the complement of the limbs of `a`, plus one. -/
def BigInt.negate {N : Nat} (a : BigInt N) : BigInt N where
  data := incLimbs (complLimbs a.data)
  static_assert := a.static_assert
  size_eq := by rw [incLimbs_length, complLimbs_length]; exact a.size_eq
  limb_lt := incLimbs_lt _ (complLimbs_lt a.data)

/-- Modelled from the spec: the body of `BigUint::operator~`, declared at
`BigUint.hpp` 70 and not defined, as the limb-wise complement of the receiver;
it returns `*this`. The other bodies are those of `m`. -/
def BigUint.Members.withComplement {ε : Type} {N : Nat} (m : BigUint.Members ε N) :
    BigUint.Members ε N :=
  { m with compl := fun a => .returned ⟨a.complement, .receiver⟩ }

/-- Modelled from the spec: the bodies of `BigInt::operator~` and of the unary
`BigInt::operator-`, declared at `BigInt.hpp` 72-73 and not defined, as the
limb-wise complement and as complement-plus-one of the receiver (section 3);
each returns `*this`. The other bodies are those of `m`. -/
def BigInt.Members.withComplementNegate {ε : Type} {N : Nat} (m : BigInt.Members ε N) :
    BigInt.Members ε N :=
  { m with
    compl := fun a => .returned ⟨a.complement, .receiver⟩
    neg := fun a => .returned ⟨a.negate, .receiver⟩ }

/-! ## Construction by the defaulted constructor -/

/-- The expression `value_type()`, `BigUint<N>()`: value-initialisation. The
default constructor is defaulted on its first declaration (`BigUint.hpp` 50),
so the object is zero-initialised: every limb is 0. -/
def BigUint.value_init (k : Nat) : BigUint (limbBits * k) where
  data := List.replicate k 0
  static_assert := Nat.mul_mod_right _ _
  size_eq := by
    rw [List.length_replicate, Nat.mul_div_cancel_left _ (by decide : 0 < limbBits)]
  limb_lt := by
    intro x hx
    rw [List.eq_of_mem_replicate hx]
    exact Nat.pow_pos (by decide)

/-- The expression `value_type()`, `BigInt<N>()`: value-initialisation. The
default constructor is defaulted on its first declaration (`BigInt.hpp` 50),
so the object is zero-initialised: every limb is 0. -/
def BigInt.value_init (k : Nat) : BigInt (limbBits * k) where
  data := List.replicate k 0
  static_assert := Nat.mul_mod_right _ _
  size_eq := by
    rw [List.length_replicate, Nat.mul_div_cancel_left _ (by decide : 0 < limbBits)]
  limb_lt := by
    intro x hx
    rw [List.eq_of_mem_replicate hx]
    exact Nat.pow_pos (by decide)

/-- The expression `value_type()`, `BigFloat<p, b, r>()`: value-initialisation
of the class of `BigFloat.hpp` 53-56; the flag `s` is zero-initialised. -/
def BigFloat.value_init (p : Nat) (b : Int) (r : Nat) : BigFloat p b r := ⟨false⟩

/-- The ways an object is created through the defaulted default constructor. -/
inductive Initialization where
  /-- The forms `T()` and `T{}`: the object is zero-initialised first. -/
  | value
  /-- The form `T x;` for an object of static storage duration, which is
  zero-initialised before any other initialisation. -/
  | defaultStatic
  /-- The form `T x;` at block scope, or `new T`: default-initialisation. -/
  | defaultAutomatic
  deriving DecidableEq, Repr

/-- A `BigUint<N>` created through `constexpr BigUint() = default;`
(`BigUint.hpp` 47-50). The member `data` has no initialiser, so under
default-initialisation the limbs keep what the storage held, `storage`. -/
def BigUint.default_construct {k : Nat} (form : Initialization)
    (storage : BigUint (limbBits * k)) : BigUint (limbBits * k) :=
  match form with
  | .value => BigUint.value_init k
  | .defaultStatic => BigUint.value_init k
  | .defaultAutomatic => storage

/-- A `BigInt<N>` created through `constexpr BigInt() = default;`
(`BigInt.hpp` 47-50). The member `data` has no initialiser, so under
default-initialisation the limbs keep what the storage held, `storage`. -/
def BigInt.default_construct {k : Nat} (form : Initialization)
    (storage : BigInt (limbBits * k)) : BigInt (limbBits * k) :=
  match form with
  | .value => BigInt.value_init k
  | .defaultStatic => BigInt.value_init k
  | .defaultAutomatic => storage

/-- A `BigFloat<p, b, r>` created through `constexpr BigFloat() = default;`
(`BigFloat.hpp` 53-56). The member `s` has no initialiser, so under
default-initialisation it keeps what the storage held, `storage`. -/
def BigFloat.default_construct {p : Nat} {b : Int} {r : Nat} (form : Initialization)
    (storage : BigFloat p b r) : BigFloat p b r :=
  match form with
  | .value => BigFloat.value_init p b r
  | .defaultStatic => BigFloat.value_init p b r
  | .defaultAutomatic => storage

/-! ## Numeric traits (`Biglimits.hpp`) -/

/-- The enumeration `std::float_denorm_style`. -/
inductive float_denorm_style where
  | denorm_indeterminate
  | denorm_absent
  | denorm_present
  deriving DecidableEq, Repr

/-- The enumeration `std::float_round_style`. -/
inductive float_round_style where
  | round_indeterminate
  | round_toward_zero
  | round_to_nearest
  | round_toward_infinity
  | round_toward_neg_infinity
  deriving DecidableEq, Repr

/-- The static data members of a specialisation of `std::numeric_limits`. -/
structure numeric_limits where
  is_specialized : Bool
  digits : Int
  digits10 : Int
  max_digits10 : Int
  is_signed : Bool
  is_integer : Bool
  is_exact : Bool
  radix : Int
  min_exponent : Int
  min_exponent10 : Int
  max_exponent : Int
  max_exponent10 : Int
  has_infinity : Bool
  has_quiet_NaN : Bool
  has_signaling_NaN : Bool
  has_denorm : float_denorm_style
  has_denorm_loss : Bool
  is_iec559 : Bool
  is_bounded : Bool
  is_modulo : Bool
  traps : Bool
  tinyness_before : Bool
  round_style : float_round_style
  deriving DecidableEq, Repr

/-- The conversion `static_cast<int>(n)` of a `std::size_t` to a 32-bit `int`:
the value modulo `2 ^ 32`, read as two's complement. -/
def static_cast_int (n : Nat) : Int :=
  if n % 2 ^ 32 < 2 ^ 31 then (n % 2 ^ 32 : Nat) else (n % 2 ^ 32 : Nat) - 2 ^ 32

/-- The member `digits` of the two integer specialisations,
`static_cast<int>( N * sizeof(std::uint8_t) )`, with `sizeof(std::uint8_t) = 1`
and `std::size_t` of 64 bits. -/
def limits_digits (N : Nat) : Int :=
  static_cast_int (N * 1 % 2 ^ 64)

/-- The member `digits10` of the two integer specialisations,
`digits * 3 / 10` in `int` arithmetic (the quotient truncates). -/
def limits_digits10 (N : Nat) : Int :=
  Int.tdiv (limits_digits N * 3) 10

/-- The specialisation `numeric_limits<Big::BigInt<N>>` (`Biglimits.hpp` 40-83). -/
def BigInt.limits (N : Nat) : numeric_limits where
  is_specialized := true
  digits := limits_digits N
  digits10 := limits_digits10 N
  max_digits10 := 0
  is_signed := true
  is_integer := true
  is_exact := true
  radix := 2
  min_exponent := 0
  min_exponent10 := 0
  max_exponent := 0
  max_exponent10 := 0
  has_infinity := false
  has_quiet_NaN := false
  has_signaling_NaN := false
  has_denorm := .denorm_absent
  has_denorm_loss := false
  is_iec559 := false
  is_bounded := true
  is_modulo := false
  traps := false
  tinyness_before := false
  round_style := .round_toward_zero

/-- The specialisation `numeric_limits<Big::BigUint<N>>` (`Biglimits.hpp` 86-129). -/
def BigUint.limits (N : Nat) : numeric_limits where
  is_specialized := true
  digits := limits_digits N
  digits10 := limits_digits10 N
  max_digits10 := 0
  is_signed := false
  is_integer := true
  is_exact := true
  radix := 2
  min_exponent := 0
  min_exponent10 := 0
  max_exponent := 0
  max_exponent10 := 0
  has_infinity := false
  has_quiet_NaN := false
  has_signaling_NaN := false
  has_denorm := .denorm_absent
  has_denorm_loss := false
  is_iec559 := false
  is_bounded := true
  is_modulo := false
  traps := false
  tinyness_before := false
  round_style := .round_toward_zero

/-- The specialisation `numeric_limits<Big::BigFloat<p, b, r>>`
(`Biglimits.hpp` 132-175). -/
def BigFloat.limits (_p : Nat) (b : Int) (_r : Nat) : numeric_limits where
  is_specialized := true
  digits := 0
  digits10 := 0
  max_digits10 := 0
  is_signed := true
  is_integer := false
  is_exact := false
  radix := b
  min_exponent := 0
  min_exponent10 := 0
  max_exponent := 0
  max_exponent10 := 0
  has_infinity := false
  has_quiet_NaN := false
  has_signaling_NaN := false
  has_denorm := .denorm_absent
  has_denorm_loss := false
  is_iec559 := false
  is_bounded := true
  is_modulo := false
  traps := false
  tinyness_before := false
  round_style := .round_toward_zero

/-- A call `@x` of a unary member declared `noexcept` that returns `T&`, inside
`return @x;` of a `noexcept` function: the value returned is a copy of what the
reference denotes. -/
def returnUnary {ε T : Type} (body : T → Outcome ε (Assigned T)) (x : T) : Outcome ε T :=
  noexcept ((noexcept (body x)).bind fun r => .returned r.result)

/-- The member `numeric_limits<Big::BigUint<N>>::min()`: `return value_type();`. -/
def BigUint.limits_min (k : Nat) : BigUint (limbBits * k) :=
  BigUint.value_init k

/-- The member `numeric_limits<Big::BigUint<N>>::max()`: `return ~min();`. -/
def BigUint.limits_max {ε : Type} (k : Nat) (m : BigUint.Members ε (limbBits * k)) :
    Outcome ε (BigUint (limbBits * k)) :=
  returnUnary m.compl (BigUint.limits_min k)

/-- The member `numeric_limits<Big::BigUint<N>>::lowest()`: `return min();`. -/
def BigUint.limits_lowest (k : Nat) : BigUint (limbBits * k) :=
  BigUint.limits_min k

/-- The member `numeric_limits<Big::BigInt<N>>::min()`: `return ~value_type();`. -/
def BigInt.limits_min {ε : Type} (k : Nat) (m : BigInt.Members ε (limbBits * k)) :
    Outcome ε (BigInt (limbBits * k)) :=
  returnUnary m.compl (BigInt.value_init k)

/-- The member `numeric_limits<Big::BigInt<N>>::max()`: `return -min();`. -/
def BigInt.limits_max {ε : Type} (k : Nat) (m : BigInt.Members ε (limbBits * k)) :
    Outcome ε (BigInt (limbBits * k)) :=
  noexcept ((BigInt.limits_min k m).bind fun t => returnUnary m.neg t)

/-- The member `numeric_limits<Big::BigInt<N>>::lowest()`: `return min();`. -/
def BigInt.limits_lowest {ε : Type} (k : Nat) (m : BigInt.Members ε (limbBits * k)) :
    Outcome ε (BigInt (limbBits * k)) :=
  noexcept (BigInt.limits_min k m)

/-- The signed value an expression returns, if it returns. -/
def Outcome.signedValue {ε : Type} {N : Nat} (o : Outcome ε (BigInt N)) : Option Int :=
  match o with
  | .returned v => some v.toInt
  | _ => none

/-! ## Bitwise and shift operators (`BigUint.hpp` 134-154) -/

/-- The `operator^` of `BigUint.hpp`: `return lhs ^= rhs;`, `lhs` by value. -/
def BigUint.operator_xor {ε : Type} {N : Nat} (m : BigUint.Members ε N)
    (lhs rhs : BigUint N) : Outcome ε (BigUint N) :=
  returnCompound m.xorAssign lhs rhs

/-- The `operator&` of `BigUint.hpp`: `return lhs &= rhs;`, `lhs` by value. -/
def BigUint.operator_and {ε : Type} {N : Nat} (m : BigUint.Members ε N)
    (lhs rhs : BigUint N) : Outcome ε (BigUint N) :=
  returnCompound m.andAssign lhs rhs

/-- The `operator|` of `BigUint.hpp`: `return lhs |= rhs;`, `lhs` by value. -/
def BigUint.operator_or {ε : Type} {N : Nat} (m : BigUint.Members ε N)
    (lhs rhs : BigUint N) : Outcome ε (BigUint N) :=
  returnCompound m.orAssign lhs rhs

/-- Whether a member call `obj.f(...)` is well-formed as far as `const` goes: a
member function that is not declared `const` has an implicit object parameter
of type `T&`, which does not bind to an object expression of type `const T`;
with no viable function the call is ill-formed. -/
def memberCallWellFormed (objectConst memberConst : Bool) : Bool :=
  !objectConst || memberConst

/-- Whether the compound assignments of `BigUint.hpp` 72-82 are declared
`const`: `constexpr BigUint& operator<<=(IntType shift)noexcept;` and its
siblings carry no cv-qualifier. -/
def BigUint.compoundAssignConst : Bool := false

/-- Whether the left parameter of the eight operators of `BigUint.hpp` 114-145
is const-qualified: it is declared `BigUint<N> lhs`, a copy that is not const. -/
def BigUint.binaryLhsConst : Bool := false

/-- Whether the left parameter of the two shifts of `BigUint.hpp` 147-154 is
const-qualified: it is declared `const BigUint<N>& lhs`, the caller's own
object seen as const. -/
def BigUint.shiftLhsConst : Bool := true

/-- The shift `operator<<` of `BigUint.hpp` 147-150: `return lhs <<= shift;`
where `lhs` is declared `const BigUint<N>&` and `operator<<=` is not a const
member. The result is `none` when the call in its body is ill-formed, so that
no instantiation of the operator exists; otherwise the operator returns a copy
of what the reference returned by the member denotes. -/
def BigUint.operator_shl {ε : Type} {N : Nat} (m : BigUint.Members ε N)
    (lhs : BigUint N) (shift : Int) : Option (Outcome ε (BigUint N)) :=
  if memberCallWellFormed BigUint.shiftLhsConst BigUint.compoundAssignConst then
    some (noexcept ((noexcept (m.shlAssign lhs shift)).bind fun r => .returned r.result))
  else none

/-- The shift `operator>>` of `BigUint.hpp` 151-154: `return lhs >>= shift;`
where `lhs` is declared `const BigUint<N>&` and `operator>>=` is not a const
member. The result is `none` when the call in its body is ill-formed, so that
no instantiation of the operator exists; otherwise the operator returns a copy
of what the reference returned by the member denotes. -/
def BigUint.operator_shr {ε : Type} {N : Nat} (m : BigUint.Members ε N)
    (lhs : BigUint N) (shift : Int) : Option (Outcome ε (BigUint N)) :=
  if memberCallWellFormed BigUint.shiftLhsConst BigUint.compoundAssignConst then
    some (noexcept ((noexcept (m.shrAssign lhs shift)).bind fun r => .returned r.result))
  else none

/-! ## Text of a value -/

/-- The decimal numeral of `v`, most-significant digit first, without leading
zeros; "0" for zero. -/
def decimalNumeral (v : Nat) : List Char :=
  Nat.toDigits 10 v

/-- The characters a stream insertion appended: what the buffer of `after`
holds beyond the buffer of `before`. -/
def appendedText (before after : StdStream) : Option (List Char) :=
  match before.rdbuf, after.rdbuf with
  | some old, some new => if old.isPrefixOf new then some (new.drop old.length) else none
  | _, _ => none

/-! ## Shared lemmas -/

theorem noexcept_ne_thrown {ε α : Type} (o : Outcome ε α) (e : ε) :
    noexcept o ≠ .thrown e := by
  cases o <;> simp [noexcept]

theorem noexcept_cases {ε α : Type} (o : Outcome ε α) :
    noexcept o = .terminated ∨ ∃ v, noexcept o = .returned v := by
  cases o <;> simp [noexcept]

theorem returnCompound_ne_thrown {ε T : Type} (body : T → T → Outcome ε (Assigned T))
    (lhs rhs : T) (e : ε) : returnCompound body lhs rhs ≠ .thrown e :=
  noexcept_ne_thrown _ e

theorem Outcome.bind_ne_returned {ε α β : Type} (o : Outcome ε α) (f : α → Outcome ε β)
    (w : β) (h : ∀ v, f v ≠ .returned w) : o.bind f ≠ .returned w := by
  cases o with
  | returned v => exact h v
  | thrown e => simp [Outcome.bind]
  | terminated => simp [Outcome.bind]

/-! ## Comparison -/

/-- C1: exactly one of `a < b`, `a == b`, `a > b` should hold for `BigUint<N>`
and for `BigInt<N>`. In the code none of the three holds, for any operands:
the number of true comparisons is 0, not 1; so it is for the `BigUint<32>`
objects 0 and 1 and for the `BigInt<32>` objects 0 and 0. -/
theorem comparison_none_of_three :
    (∀ (N : Nat) (a b : BigUint N),
      countTrue (BigUint.operator_lt a b) (BigUint.operator_eq a b)
        (BigUint.operator_gt a b) = 0) ∧
    (∀ (N : Nat) (a b : BigInt N),
      countTrue (BigInt.operator_lt a b) (BigInt.operator_eq a b)
        (BigInt.operator_gt a b) = 0) ∧
    countTrue (BigUint.operator_lt (BigUint.ofNat 1 0) (BigUint.ofNat 1 1))
      (BigUint.operator_eq (BigUint.ofNat 1 0) (BigUint.ofNat 1 1))
      (BigUint.operator_gt (BigUint.ofNat 1 0) (BigUint.ofNat 1 1)) ≠ 1 ∧
    countTrue (BigInt.operator_lt (BigInt.ofNat 1 0) (BigInt.ofNat 1 0))
      (BigInt.operator_eq (BigInt.ofNat 1 0) (BigInt.ofNat 1 0))
      (BigInt.operator_gt (BigInt.ofNat 1 0) (BigInt.ofNat 1 0)) ≠ 1 :=
  ⟨fun _ _ _ => rfl, fun _ _ _ => rfl, by decide, by decide⟩

/-- C2: `operator==` on `BigUint<N>` should be true exactly when the limb
sequences are identical, so `a == a` should be true. In the code `operator==`
is false for all operands: for the `BigUint<64>` object 5 the limbs of `a` and
`a` are identical and `a == a` is false. -/
theorem biguint_eq_not_reflexive :
    (∀ (N : Nat) (a b : BigUint N), BigUint.operator_eq a b = false) ∧
    ¬ (BigUint.operator_eq (BigUint.ofNat 2 5) (BigUint.ofNat 2 5) = true ↔
        (BigUint.ofNat 2 5).data = (BigUint.ofNat 2 5).data) :=
  ⟨fun _ _ _ => rfl, by decide⟩

/-- C8: `operator<` on `BigUint<N>` should be true exactly when the unsigned
value of `a` is below that of `b`. In the code `operator<` is false for all
operands: the `BigUint<32>` objects 0 and 1 have values `0 < 1` and `0 < 1`
evaluates to false. -/
theorem biguint_lt_ignores_value :
    (∀ (N : Nat) (a b : BigUint N), BigUint.operator_lt a b = false) ∧
    ¬ (BigUint.operator_lt (BigUint.ofNat 1 0) (BigUint.ofNat 1 1) = true ↔
        (BigUint.ofNat 1 0).toNat < (BigUint.ofNat 1 1).toNat) :=
  ⟨fun _ _ _ => rfl, by decide⟩

/-- C9: `operator<` on `BigInt<N>` should be true exactly when the
two's-complement value of `a` is below that of `b`. In the code `operator<` is
false for all operands: the `BigInt<32>` objects -1 (all bits set) and 0 have
values `-1 < 0` and `a < b` evaluates to false. -/
theorem bigint_lt_ignores_value :
    (∀ (N : Nat) (a b : BigInt N), BigInt.operator_lt a b = false) ∧
    (BigInt.ofInt 1 (-1)).data = [4294967295] ∧
    ¬ (BigInt.operator_lt (BigInt.ofInt 1 (-1)) (BigInt.ofInt 1 0) = true ↔
        (BigInt.ofInt 1 (-1)).toInt < (BigInt.ofInt 1 0).toInt) :=
  ⟨fun _ _ _ => rfl, by decide, by decide⟩

/-! ## Arithmetic identities -/

/-- C3: `(a + b) - b == a` should evaluate to true on `BigUint<N>`. In the
code it never does, whatever the bodies of `operator+=` and `operator-=` are,
because `operator==` is false for all operands. With the wrapping arithmetic of
the spec and the `BigUint<64>` objects `2^64 - 1` and 1, `(a + b) - b` has
the limbs of `a` and the expression evaluates to false. -/
theorem wraparound_never_true :
    (∀ (ε : Type) (N : Nat) (m : BigUint.Members ε N) (a b : BigUint N),
      BigUint.wraparound m a b ≠ .returned true) ∧
    ((BigUint.operator_add (BigUint.specMembers 64) (BigUint.ofNat 2 (2 ^ 64 - 1))
        (BigUint.ofNat 2 1)).bind fun s =>
      BigUint.operator_sub (BigUint.specMembers 64) s (BigUint.ofNat 2 1)).limbs
      = some (BigUint.ofNat 2 (2 ^ 64 - 1)).data ∧
    BigUint.wraparound (BigUint.specMembers 64) (BigUint.ofNat 2 (2 ^ 64 - 1))
      (BigUint.ofNat 2 1) = .returned false := by
  refine ⟨?_, by decide, by decide⟩
  intro ε N m a b
  unfold BigUint.wraparound
  refine Outcome.bind_ne_returned _ _ _ fun s => ?_
  refine Outcome.bind_ne_returned _ _ _ fun d => ?_
  simp [BigUint.operator_eq]

/-- C4: `b * (a / b) + (a % b) == a` should evaluate to true for non-zero `b`
on `BigUint<N>` and `BigInt<N>`. In the code it never does, whatever the bodies
of the compound assignments are, because `operator==` is false for all
operands: so for the `BigUint<64>` objects 7 and 2 and the `BigInt<64>`
objects -7 and 2 under the arithmetic of the spec. -/
theorem division_identity_never_true :
    (∀ (ε : Type) (N : Nat) (m : BigUint.Members ε N) (a b : BigUint N),
      BigUint.divisionIdentity m a b ≠ .returned true) ∧
    (∀ (ε : Type) (N : Nat) (m : BigInt.Members ε N) (a b : BigInt N),
      BigInt.divisionIdentity m a b ≠ .returned true) ∧
    BigUint.divisionIdentity (BigUint.specMembers 64) (BigUint.ofNat 2 7)
      (BigUint.ofNat 2 2) = .returned false ∧
    BigInt.divisionIdentity (BigInt.specMembers 64) (BigInt.ofInt 2 (-7))
      (BigInt.ofInt 2 2) = .returned false := by
  refine ⟨?_, ?_, by decide, by decide⟩
  · intro ε N m a b
    unfold BigUint.divisionIdentity
    refine Outcome.bind_ne_returned _ _ _ fun q => ?_
    refine Outcome.bind_ne_returned _ _ _ fun t => ?_
    refine Outcome.bind_ne_returned _ _ _ fun r => ?_
    refine Outcome.bind_ne_returned _ _ _ fun s => ?_
    simp [BigUint.operator_eq]
  · intro ε N m a b
    unfold BigInt.divisionIdentity
    refine Outcome.bind_ne_returned _ _ _ fun q => ?_
    refine Outcome.bind_ne_returned _ _ _ fun t => ?_
    refine Outcome.bind_ne_returned _ _ _ fun r => ?_
    refine Outcome.bind_ne_returned _ _ _ fun s => ?_
    simp [BigInt.operator_eq]

/-- C6: `-(-a) == a` and `~a == -a - 1` should both evaluate to true on
`BigInt<N>`. In the code neither ever does, whatever the bodies of the unary
operators and of `operator-=` are and in whichever order the operands of `==`
are evaluated, because `operator==` is false for all operands: so for the
`BigInt<64>` object 5 under the two's-complement arithmetic of the spec. -/
theorem twos_complement_identities_never_true :
    (∀ (ε : Type) (N : Nat) (m : BigInt.Members ε N) (a x : BigInt N),
      BigInt.negNegEq m a ≠ .returned ⟨true, x⟩) ∧
    (∀ (ε : Type) (N : Nat) (m : BigInt.Members ε N) (leftFirst : Bool)
        (one a x : BigInt N),
      BigInt.complEqNegMinusOne m leftFirst one a ≠ .returned ⟨true, x⟩) ∧
    (BigInt.negNegEq (BigInt.specMembers 64) (BigInt.ofInt 2 5)).bind
      (fun r => .returned r.value) = .returned false ∧
    (BigInt.complEqNegMinusOne (BigInt.specMembers 64) true (BigInt.ofInt 2 1)
      (BigInt.ofInt 2 5)).bind (fun r => .returned r.value) = .returned false := by
  refine ⟨?_, ?_, by decide, by decide⟩
  · intro ε N m a x
    unfold BigInt.negNegEq
    refine Outcome.bind_ne_returned _ _ _ fun r1 => ?_
    cases r1.ref with
    | receiver =>
      refine Outcome.bind_ne_returned _ _ _ fun r2 => ?_
      simp [BigInt.operator_eq]
    | other v =>
      refine Outcome.bind_ne_returned _ _ _ fun r2 => ?_
      simp [BigInt.operator_eq]
  · intro ε N m leftFirst one a x
    unfold BigInt.complEqNegMinusOne
    cases leftFirst with
    | true =>
      simp only [if_true]
      refine Outcome.bind_ne_returned _ _ _ fun r1 => ?_
      refine Outcome.bind_ne_returned _ _ _ fun r2 => ?_
      refine Outcome.bind_ne_returned _ _ _ fun d => ?_
      cases r1.ref <;> simp [BigInt.operator_eq]
    | false =>
      simp only [Bool.false_eq_true, if_false]
      refine Outcome.bind_ne_returned _ _ _ fun r2 => ?_
      refine Outcome.bind_ne_returned _ _ _ fun d => ?_
      refine Outcome.bind_ne_returned _ _ _ fun r1 => ?_
      simp [BigInt.operator_eq]

/-! ## Textual round trip -/

theorem StdStream.setstate_failbit (s : StdStream) :
    (s.setstate IoState.failbitOnly).stream.rdstate.failbit = true := by
  unfold StdStream.setstate StdStream.clear
  cases s.rdbuf.isSome <;> simp [IoState.union, IoState.failbitOnly]

/-- C7: writing `a` with `operator<<` and reading the text back with
`operator>>` should succeed with `failbit` clear and give an object equal to
`a`. In the code `operator<<` leaves the stream as it was, and `operator>>`
sets `failbit` and leaves the target as it was, for every stream and every
object of `BigUint<N>`, `BigInt<N>` and `BigFloat<p,b,r>`; so `failbit` is set
after the round trip of the `BigUint<64>` object 5 through an empty stream,
where the target still holds 0. -/
theorem round_trip_sets_failbit :
    (∀ (N : Nat) (s : StdStream) (a fresh : BigUint N),
      BigUint.operator_insert s a = s ∧
      (BigUint.roundTrip s a fresh).is.rdstate.failbit = true ∧
      (BigUint.roundTrip s a fresh).obj = fresh) ∧
    (∀ (N : Nat) (s : StdStream) (a fresh : BigInt N),
      BigInt.operator_insert s a = s ∧
      (BigInt.roundTrip s a fresh).is.rdstate.failbit = true ∧
      (BigInt.roundTrip s a fresh).obj = fresh) ∧
    (∀ (p : Nat) (b : Int) (r : Nat) (s : StdStream) (a fresh : BigFloat p b r),
      BigFloat.operator_insert s a = s ∧
      (BigFloat.roundTrip s a fresh).is.rdstate.failbit = true ∧
      (BigFloat.roundTrip s a fresh).obj = fresh) ∧
    (BigUint.operator_insert StdStream.fresh (BigUint.ofNat 2 5)).rdbuf = some [] ∧
    (BigUint.roundTrip StdStream.fresh (BigUint.ofNat 2 5)
      (BigUint.ofNat 2 0)).is.rdstate.failbit = true ∧
    (BigUint.roundTrip StdStream.fresh (BigUint.ofNat 2 5)
      (BigUint.ofNat 2 0)).obj.data = [0, 0] :=
  ⟨fun _ s _ _ => ⟨rfl, StdStream.setstate_failbit s, rfl⟩,
    fun _ s _ _ => ⟨rfl, StdStream.setstate_failbit s, rfl⟩,
    fun _ _ _ s _ _ => ⟨rfl, StdStream.setstate_failbit s, rfl⟩,
    by decide, by decide, by decide⟩

/-! ## Limb sequences and their values -/

theorem limbsValue_replicate_zero (k : Nat) : limbsValue (List.replicate k 0) = 0 := by
  induction k with
  | zero => rfl
  | succ k ih => simp [List.replicate_succ, limbsValue, ih]

theorem limbsValue_replicate_max (k : Nat) :
    limbsValue (List.replicate k limbMax) + 1 = 2 ^ (limbBits * k) := by
  induction k with
  | zero => rfl
  | succ k ih =>
    have hpos : 0 < 2 ^ limbBits := Nat.pow_pos (by decide)
    have hstep : 2 ^ (limbBits * (k + 1)) = 2 ^ limbBits * 2 ^ (limbBits * k) := by
      rw [Nat.mul_succ, Nat.pow_add, Nat.mul_comm]
    rw [List.replicate_succ, limbsValue, hstep, ← ih, Nat.mul_add]
    unfold limbMax
    omega

theorem limbsValue_lt (xs : List Nat) (h : ∀ x ∈ xs, x < 2 ^ limbBits) :
    limbsValue xs < 2 ^ (limbBits * xs.length) := by
  induction xs with
  | nil => simp [limbsValue]
  | cons y ys ih =>
    have hy : y < 2 ^ limbBits := h y (List.mem_cons_self _ _)
    have hys := ih fun x hx => h x (List.mem_cons_of_mem _ hx)
    have hstep : 2 ^ (limbBits * (ys.length + 1)) = 2 ^ limbBits * 2 ^ (limbBits * ys.length) := by
      rw [Nat.mul_succ, Nat.pow_add, Nat.mul_comm]
    rw [List.length_cons, limbsValue, hstep]
    have hle : 2 ^ limbBits * (limbsValue ys + 1) ≤ 2 ^ limbBits * 2 ^ (limbBits * ys.length) :=
      Nat.mul_le_mul_left _ hys
    rw [Nat.mul_add, Nat.mul_one] at hle
    omega

theorem complLimbs_replicate_zero (k : Nat) :
    complLimbs (List.replicate k 0) = List.replicate k limbMax := by
  simp [complLimbs]

theorem complLimbs_replicate_max (k : Nat) :
    complLimbs (List.replicate k limbMax) = List.replicate k 0 := by
  simp [complLimbs]

theorem incLimbs_replicate_zero (k : Nat) :
    incLimbs (List.replicate (k + 1) 0) = 1 :: List.replicate k 0 := by
  have h : (0 : Nat) ≠ limbMax := by decide
  simp [List.replicate_succ, incLimbs, h]

theorem BigUint.toNat_lt {N : Nat} (a : BigUint N) : a.toNat < 2 ^ N := by
  have h := limbsValue_lt a.data a.limb_lt
  have hN : limbBits * a.data.length = N := by
    rw [a.size_eq]
    exact Nat.mul_div_cancel' (Nat.dvd_of_mod_eq_zero a.static_assert)
  rw [hN] at h
  exact h

theorem BigInt.toInt_lt {N : Nat} (a : BigInt N) : a.toInt < 2 ^ (N - 1) := by
  have h := limbsValue_lt a.data a.limb_lt
  have hN : limbBits * a.data.length = N := by
    rw [a.size_eq]
    exact Nat.mul_div_cancel' (Nat.dvd_of_mod_eq_zero a.static_assert)
  rw [hN] at h
  have hpos : (0 : Int) < 2 ^ (N - 1) := by positivity
  unfold BigInt.toInt
  split
  · next hlt => exact_mod_cast hlt
  · have h' : (limbsValue a.data : Int) < 2 ^ N := by exact_mod_cast h
    omega

theorem BigInt.toInt_all_ones (k : Nat) :
    (BigInt.value_init (k + 1)).complement.toInt = -1 := by
  have hv := limbsValue_replicate_max (k + 1)
  have hsplit : 2 ^ (limbBits * (k + 1)) = 2 * 2 ^ (limbBits * (k + 1) - 1) := by
    have h1 : limbBits * (k + 1) = (limbBits * (k + 1) - 1) + 1 := by
      unfold limbBits
      omega
    conv_lhs => rw [h1]
    exact Nat.pow_succ'
  have hpos : 0 < 2 ^ (limbBits * (k + 1) - 1) := Nat.pow_pos (by decide)
  have hdata : (BigInt.value_init (k + 1)).complement.data = List.replicate (k + 1) limbMax :=
    complLimbs_replicate_zero (k + 1)
  unfold BigInt.toInt
  rw [hdata]
  have hnot : ¬ limbsValue (List.replicate (k + 1) limbMax) < 2 ^ (limbBits * (k + 1) - 1) := by
    omega
  rw [if_neg hnot]
  have hcast : ((limbsValue (List.replicate (k + 1) limbMax) : Nat) : Int) + 1
      = 2 ^ (limbBits * (k + 1)) := by exact_mod_cast hv
  omega

theorem BigInt.toInt_negate_all_ones (k : Nat) :
    (BigInt.value_init (k + 1)).complement.negate.toInt = 1 := by
  have hdata : (BigInt.value_init (k + 1)).complement.negate.data = 1 :: List.replicate k 0 := by
    show incLimbs (complLimbs (complLimbs (List.replicate (k + 1) 0))) = _
    rw [complLimbs_replicate_zero, complLimbs_replicate_max, incLimbs_replicate_zero]
  have hval : limbsValue (1 :: List.replicate k 0) = 1 := by
    simp [limbsValue, limbsValue_replicate_zero]
  have hbig : 1 < 2 ^ (limbBits * (k + 1) - 1) :=
    Nat.one_lt_two_pow (by unfold limbBits; omega)
  unfold BigInt.toInt
  rw [hdata, hval, if_pos hbig]
  rfl

/-! ## Bounds reported by the numeric traits -/

/-- C13: `numeric_limits<BigInt<N>>::min()` should be `-2^(N-1)` and `max()`
should be `2^(N-1) - 1`, with `operator~` the limb-wise complement, unary
`operator-` complement-plus-one and `BigInt<N>()` all-zero. In the code, for
every width of at least one limb, `min()` is `~value_type()`, all bits set,
the value -1, and `max()` is `-min()`, the value 1; `lowest()` equals `min()`.
For `BigInt<64>` the values are -1 and 1, not `-2^63` and `2^63 - 1`. -/
theorem bigint_limits_min_max_wrong :
    (∀ (ε : Type) (k : Nat) (m : BigInt.Members ε (limbBits * (k + 1))),
      (BigInt.limits_min (k + 1) m.withComplementNegate).signedValue = some (-1) ∧
      (BigInt.limits_max (k + 1) m.withComplementNegate).signedValue = some 1 ∧
      BigInt.limits_lowest (k + 1) m.withComplementNegate
        = BigInt.limits_min (k + 1) m.withComplementNegate) ∧
    (BigInt.limits_min 2 (BigInt.specMembers 64).withComplementNegate).signedValue
      ≠ some (-2 ^ 63) ∧
    (BigInt.limits_max 2 (BigInt.specMembers 64).withComplementNegate).signedValue
      ≠ some (2 ^ 63 - 1) := by
  refine ⟨?_, by decide, by decide⟩
  intro ε k m
  have hmin : BigInt.limits_min (k + 1) m.withComplementNegate
      = .returned (BigInt.value_init (k + 1)).complement := rfl
  have hmax : BigInt.limits_max (k + 1) m.withComplementNegate
      = .returned (BigInt.value_init (k + 1)).complement.negate := rfl
  refine ⟨?_, ?_, ?_⟩
  · rw [hmin]
    exact congrArg some (BigInt.toInt_all_ones k)
  · rw [hmax]
    exact congrArg some (BigInt.toInt_negate_all_ones k)
  · unfold BigInt.limits_lowest
    rw [hmin]
    rfl

/-- C14: with `operator~` the limb-wise complement and `BigUint<N>()` the
all-zero pattern, `numeric_limits<BigUint<N>>::min()` has every limb 0 and the
value 0, `max()` returns the object with every limb all-ones, of value
`2^N - 1`, and every `BigUint<N>` has a value between the two; `N` ranges over
the permitted widths `32 * k`. -/
theorem biguint_limits_min_max (ε : Type) (k : Nat) (m : BigUint.Members ε (limbBits * k)) :
    (BigUint.limits_min k).data = List.replicate k 0 ∧
    (BigUint.limits_min k).toNat = 0 ∧
    BigUint.limits_max k m.withComplement = .returned (BigUint.limits_min k).complement ∧
    (BigUint.limits_min k).complement.data = List.replicate k limbMax ∧
    (BigUint.limits_min k).complement.toNat = 2 ^ (limbBits * k) - 1 ∧
    ∀ v : BigUint (limbBits * k),
      (BigUint.limits_min k).toNat ≤ v.toNat ∧
      v.toNat ≤ (BigUint.limits_min k).complement.toNat := by
  have hdata : (BigUint.limits_min k).complement.data = List.replicate k limbMax :=
    complLimbs_replicate_zero k
  have hmax : (BigUint.limits_min k).complement.toNat = 2 ^ (limbBits * k) - 1 := by
    unfold BigUint.toNat
    rw [hdata]
    have := limbsValue_replicate_max k
    omega
  have hmin : (BigUint.limits_min k).toNat = 0 := limbsValue_replicate_zero k
  refine ⟨rfl, hmin, rfl, hdata, hmax, fun v => ⟨?_, ?_⟩⟩
  · rw [hmin]
    exact Nat.zero_le _
  · rw [hmax]
    have := v.toNat_lt
    omega

/-- C15: the numeric traits report `is_signed` true for `BigInt<N>` and
`BigFloat<p,b,r>` and false for `BigUint<N>`, `is_exact` true for the two
integer types and false for `BigFloat<p,b,r>`, and `radix` 2 for the two
integer types and the template parameter `b` for `BigFloat<p,b,r>`. -/
theorem limits_signed_exact_radix (N p : Nat) (b : Int) (r : Nat) :
    (BigInt.limits N).is_signed = true ∧ (BigFloat.limits p b r).is_signed = true ∧
    (BigUint.limits N).is_signed = false ∧
    (BigInt.limits N).is_exact = true ∧ (BigUint.limits N).is_exact = true ∧
    (BigFloat.limits p b r).is_exact = false ∧
    (BigInt.limits N).radix = 2 ∧ (BigUint.limits N).radix = 2 ∧
    (BigFloat.limits p b r).radix = b :=
  ⟨rfl, rfl, rfl, rfl, rfl, rfl, rfl, rfl, rfl⟩

/-- C19: `digits` of `BigInt<N>` should be the number of non-sign value bits
and every decimal integer of `digits10` digits should be representable. In
the code `digits` is `N`: for `BigInt<64>` it is 64 while the values reach
`2^63 - 1` and no further (63 value bits), and `digits10` is 19 while
`10^19 - 1` exceeds `2^63 - 1` and is the value of no `BigInt<64>`. -/
theorem bigint_digits_count_sign_bit :
    (BigInt.limits 64).digits = 64 ∧
    (BigInt.limits 64).digits10 = 19 ∧
    (BigInt.ofNat 2 (2 ^ 63 - 1) : BigInt 64).toInt = 2 ^ 63 - 1 ∧
    (∀ a : BigInt 64, a.toInt ≤ 2 ^ 63 - 1) ∧
    ¬ ((10 : Int) ^ 19 - 1 ≤ 2 ^ (64 - 1) - 1) ∧
    (∀ a : BigInt 64, a.toInt ≠ 10 ^ 19 - 1) := by
  have hle : ∀ a : BigInt 64, a.toInt ≤ 2 ^ 63 - 1 := by
    intro a
    have h := a.toInt_lt
    have h63 : (2 : Int) ^ (64 - 1) = 2 ^ 63 := by norm_num
    rw [h63] at h
    omega
  refine ⟨by decide, by decide, by decide, hle, by decide, fun a h => ?_⟩
  have h1 := hle a
  rw [h] at h1
  exact absurd h1 (by decide)

/-! ## Construction -/

/-- C16, as the code has it: an object created by value-initialisation (`T()`,
`T{}`) or with static storage holds the all-zero pattern, every limb 0 and the
sign flag false; an object created by default-initialisation (`T x;` at block
scope) keeps what its storage held, because the defaulted constructors
initialise no member. -/
theorem default_construct_zero_when_value_initialised (k p : Nat) (b : Int) (r : Nat)
    (su : BigUint (limbBits * k)) (si : BigInt (limbBits * k)) (sf : BigFloat p b r) :
    ((∀ x ∈ (BigUint.default_construct .value su).data, x = 0) ∧
      (∀ x ∈ (BigUint.default_construct .defaultStatic su).data, x = 0) ∧
      BigUint.default_construct .defaultAutomatic su = su) ∧
    ((∀ x ∈ (BigInt.default_construct .value si).data, x = 0) ∧
      (∀ x ∈ (BigInt.default_construct .defaultStatic si).data, x = 0) ∧
      BigInt.default_construct .defaultAutomatic si = si) ∧
    ((BigFloat.default_construct .value sf).s = false ∧
      (BigFloat.default_construct .defaultStatic sf).s = false ∧
      BigFloat.default_construct .defaultAutomatic sf = sf) :=
  ⟨⟨fun _ hx => List.eq_of_mem_replicate hx, fun _ hx => List.eq_of_mem_replicate hx, rfl⟩,
    ⟨fun _ hx => List.eq_of_mem_replicate hx, fun _ hx => List.eq_of_mem_replicate hx, rfl⟩,
    ⟨rfl, rfl, rfl⟩⟩

/-- C16 as stated fails: a `BigUint<64>` default-initialised (`BigUint<64> x;`)
in storage that held the limbs 7 and 0 does not have every limb 0, and a
`BigFloat<52,2,11>` default-initialised in storage that held a set flag does
not have the sign flag false. -/
theorem default_initialised_not_zero :
    ¬ (∀ x ∈ (BigUint.default_construct .defaultAutomatic (BigUint.ofNat 2 7)).data, x = 0) ∧
    ¬ (∀ x ∈ (BigInt.default_construct .defaultAutomatic (BigInt.ofNat 2 7)).data, x = 0) ∧
    ¬ ((BigFloat.default_construct .defaultAutomatic (⟨true⟩ : BigFloat 52 2 11)).s = false) := by
  decide

/-! ## Stream extraction and insertion -/

/-- C11, as the code has it: `operator>>` leaves the target object as it was,
keeps the buffer and the exception mask, and sets `failbit` on top of the flags
already set (with `badbit` when the stream has no buffer); the call returns
normally exactly when no flag of the new state is in the `exceptions()` mask of
the stream, so always for the empty mask, and otherwise `is.setstate` throws
`std::ios_base::failure`. So it is for `BigUint<N>`, `BigInt<N>` and
`BigFloat<p,b,r>`. -/
theorem extract_keeps_object (N p : Nat) (b : Int) (r : Nat) (is : StdStream)
    (u : BigUint N) (i : BigInt N) (f : BigFloat p b r) :
    ((BigUint.operator_extract is u).obj = u ∧ (BigInt.operator_extract is i).obj = i ∧
      (BigFloat.operator_extract is f).obj = f) ∧
    ((BigUint.operator_extract is u).is = (is.setstate IoState.failbitOnly).stream ∧
      (BigInt.operator_extract is i).is = (is.setstate IoState.failbitOnly).stream ∧
      (BigFloat.operator_extract is f).is = (is.setstate IoState.failbitOnly).stream) ∧
    ((is.setstate IoState.failbitOnly).stream.rdbuf = is.rdbuf ∧
      (is.setstate IoState.failbitOnly).stream.exceptions = is.exceptions ∧
      (is.setstate IoState.failbitOnly).stream.rdstate.failbit = true ∧
      is.rdstate.union (is.setstate IoState.failbitOnly).stream.rdstate
        = (is.setstate IoState.failbitOnly).stream.rdstate ∧
      (is.setstate IoState.failbitOnly).stream.rdstate
        = (if is.rdbuf.isSome then is.rdstate.union IoState.failbitOnly
            else (is.rdstate.union IoState.failbitOnly).union ⟨true, false, false⟩)) ∧
    ((BigUint.operator_extract is u).failure
        = (is.setstate IoState.failbitOnly).stream.rdstate.meets is.exceptions ∧
      (BigInt.operator_extract is i).failure
        = (is.setstate IoState.failbitOnly).stream.rdstate.meets is.exceptions ∧
      (BigFloat.operator_extract is f).failure
        = (is.setstate IoState.failbitOnly).stream.rdstate.meets is.exceptions) ∧
    ((BigUint.operator_extract { is with exceptions := ⟨false, false, false⟩ } u).failure = false ∧
      (BigInt.operator_extract { is with exceptions := ⟨false, false, false⟩ } i).failure = false ∧
      (BigFloat.operator_extract { is with exceptions := ⟨false, false, false⟩ } f).failure
        = false) := by
  have hsub : is.rdstate.union (is.setstate IoState.failbitOnly).stream.rdstate
      = (is.setstate IoState.failbitOnly).stream.rdstate := by
    unfold StdStream.setstate StdStream.clear
    cases is.rdbuf.isSome <;> simp [IoState.union, IoState.failbitOnly]
  have hmask : ∀ st : IoState, st.meets ⟨false, false, false⟩ = false := by
    intro st
    simp [IoState.meets]
  refine ⟨⟨rfl, rfl, rfl⟩, ⟨rfl, rfl, rfl⟩,
    ⟨rfl, rfl, StdStream.setstate_failbit is, hsub, rfl⟩, ⟨rfl, rfl, rfl⟩, ⟨?_, ?_, ?_⟩⟩
  · exact hmask _
  · exact hmask _
  · exact hmask _

/-- C11 as stated fails: on a good, empty stream whose `exceptions()` mask holds
`failbit`, `operator>>` into a `BigUint<64>` sets `failbit` and does not return
normally: `is.setstate` throws `std::ios_base::failure`. -/
theorem extract_throws_under_exception_mask :
    (BigUint.operator_extract ⟨some [], ⟨false, false, false⟩, IoState.failbitOnly⟩
      (BigUint.ofNat 2 0)).is.rdstate.failbit = true ∧
    ¬ ((BigUint.operator_extract ⟨some [], ⟨false, false, false⟩, IoState.failbitOnly⟩
      (BigUint.ofNat 2 0)).failure = false) ∧
    ¬ ((BigInt.operator_extract ⟨some [], ⟨false, false, false⟩, IoState.failbitOnly⟩
      (BigInt.ofNat 2 0)).failure = false) ∧
    ¬ ((BigFloat.operator_extract ⟨some [], ⟨false, false, false⟩, IoState.failbitOnly⟩
      (BigFloat.value_init 52 2 11)).failure = false) := by
  decide

/-- C12: `operator<<` on `BigUint<N>` should append the decimal numeral of the
value, "0" for zero. In the code it returns the stream as it was, for every
stream and object: after writing the `BigUint<32>` object 0, and the object
1203, to an empty stream the text appended is empty, not "0" or "1203". -/
theorem insert_appends_nothing :
    (∀ (N : Nat) (os : StdStream) (a : BigUint N), BigUint.operator_insert os a = os) ∧
    appendedText StdStream.fresh (BigUint.operator_insert StdStream.fresh (BigUint.ofNat 1 0))
      = some [] ∧
    decimalNumeral (BigUint.ofNat 1 0).toNat = ['0'] ∧
    appendedText StdStream.fresh (BigUint.operator_insert StdStream.fresh (BigUint.ofNat 1 0))
      ≠ some (decimalNumeral (BigUint.ofNat 1 0).toNat) ∧
    appendedText StdStream.fresh (BigUint.operator_insert StdStream.fresh (BigUint.ofNat 1 1203))
      ≠ some (decimalNumeral (BigUint.ofNat 1 1203).toNat) :=
  ⟨fun _ _ _ => rfl, by decide, by decide, by decide, by decide⟩

/-! ## Operators derived from the compound assignments -/

theorem returnCompound_returned {ε T : Type} (body : T → T → Outcome ε (Assigned T))
    (lhs rhs : T) (r : Assigned T) (h : body lhs rhs = .returned r) :
    returnCompound body lhs rhs = .returned r.result := by
  unfold returnCompound
  rw [h]
  rfl

/-- C17: every binary operator of `BigUint<N>` should return what the compound
assignment produces on a copy of the left operand and leave the caller's
operands as they were. The eight operators that take `lhs` by value do: the
member call on the copy is well-formed, and when `lhs @= rhs` returns, the
operator returns the object the reference denotes. The two shifts take `lhs`
by const reference and call the non-const members `<<=`, `>>=` on it: the call
is ill-formed, so for every body, operand and shift amount there is no shift
operator to return a value; so it is for `a << 1` and `a >> 1` on the
`BigUint<32>` object 1. -/
theorem shift_operators_ill_formed :
    (∀ (ε : Type) (N : Nat) (m : BigUint.Members ε N) (a b : BigUint N)
        (r : Assigned (BigUint N)),
      (m.addAssign a b = .returned r → BigUint.operator_add m a b = .returned r.result) ∧
      (m.subAssign a b = .returned r → BigUint.operator_sub m a b = .returned r.result) ∧
      (m.mulAssign a b = .returned r → BigUint.operator_mul m a b = .returned r.result) ∧
      (m.divAssign a b = .returned r → BigUint.operator_div m a b = .returned r.result) ∧
      (m.modAssign a b = .returned r → BigUint.operator_mod m a b = .returned r.result) ∧
      (m.xorAssign a b = .returned r → BigUint.operator_xor m a b = .returned r.result) ∧
      (m.andAssign a b = .returned r → BigUint.operator_and m a b = .returned r.result) ∧
      (m.orAssign a b = .returned r → BigUint.operator_or m a b = .returned r.result)) ∧
    memberCallWellFormed BigUint.binaryLhsConst BigUint.compoundAssignConst = true ∧
    memberCallWellFormed BigUint.shiftLhsConst BigUint.compoundAssignConst = false ∧
    (∀ (ε : Type) (N : Nat) (m : BigUint.Members ε N) (a : BigUint N) (shift : Int),
      BigUint.operator_shl m a shift = none ∧ BigUint.operator_shr m a shift = none) ∧
    BigUint.operator_shl (BigUint.specMembers 32) (BigUint.ofNat 1 1) 1 = none ∧
    BigUint.operator_shr (BigUint.specMembers 32) (BigUint.ofNat 1 1) 1 = none := by
  refine ⟨?_, rfl, rfl, fun _ _ _ _ _ => ⟨rfl, rfl⟩, rfl, rfl⟩
  intro ε N m a b r
  exact ⟨returnCompound_returned _ a b r, returnCompound_returned _ a b r,
    returnCompound_returned _ a b r, returnCompound_returned _ a b r,
    returnCompound_returned _ a b r, returnCompound_returned _ a b r,
    returnCompound_returned _ a b r, returnCompound_returned _ a b r⟩

/-! ## Derived comparisons -/

/-- C18: for `BigUint<N>`, `BigInt<N>` and `BigFloat<p,b,r>`, `a > b` equals
`b < a`, `a <= b` equals `!(a > b)`, `a >= b` equals `!(a < b)` and `a != b`
equals `!(a == b)`; hence `a <= b` and `a >= b` are both true whenever `a < b`
and `b < a` are both false. -/
theorem comparisons_derived (N p : Nat) (b : Int) (r : Nat) (u v : BigUint N)
    (i j : BigInt N) (x y : BigFloat p b r) :
    (BigUint.operator_gt u v = BigUint.operator_lt v u ∧
      BigUint.operator_le u v = !(BigUint.operator_gt u v) ∧
      BigUint.operator_ge u v = !(BigUint.operator_lt u v) ∧
      BigUint.operator_ne u v = !(BigUint.operator_eq u v) ∧
      (BigUint.operator_lt u v = false → BigUint.operator_lt v u = false →
        BigUint.operator_le u v = true ∧ BigUint.operator_ge u v = true)) ∧
    (BigInt.operator_gt i j = BigInt.operator_lt j i ∧
      BigInt.operator_le i j = !(BigInt.operator_gt i j) ∧
      BigInt.operator_ge i j = !(BigInt.operator_lt i j) ∧
      BigInt.operator_ne i j = !(BigInt.operator_eq i j) ∧
      (BigInt.operator_lt i j = false → BigInt.operator_lt j i = false →
        BigInt.operator_le i j = true ∧ BigInt.operator_ge i j = true)) ∧
    (BigFloat.operator_gt x y = BigFloat.operator_lt y x ∧
      BigFloat.operator_le x y = !(BigFloat.operator_gt x y) ∧
      BigFloat.operator_ge x y = !(BigFloat.operator_lt x y) ∧
      BigFloat.operator_ne x y = !(BigFloat.operator_eq x y) ∧
      (BigFloat.operator_lt x y = false → BigFloat.operator_lt y x = false →
        BigFloat.operator_le x y = true ∧ BigFloat.operator_ge x y = true)) := by
  refine ⟨⟨rfl, rfl, rfl, rfl, fun h1 h2 => ?_⟩, ⟨rfl, rfl, rfl, rfl, fun h1 h2 => ?_⟩,
    ⟨rfl, rfl, rfl, rfl, fun h1 h2 => ?_⟩⟩
  · unfold BigUint.operator_le BigUint.operator_ge BigUint.operator_gt
    rw [h1, h2]
    exact ⟨rfl, rfl⟩
  · unfold BigInt.operator_le BigInt.operator_ge BigInt.operator_gt
    rw [h1, h2]
    exact ⟨rfl, rfl⟩
  · unfold BigFloat.operator_le BigFloat.operator_ge BigFloat.operator_gt
    rw [h1, h2]
    exact ⟨rfl, rfl⟩

/-- C18, witness: the derived comparisons of the `BigUint<32>` objects 3 and 5,
the `BigInt<32>` objects -1 and 0 and two `BigFloat<52,2,11>` objects; `a < b`
and `b < a` are false there, so `a <= b` and `a >= b` are true. -/
theorem comparisons_derived_witness :
    (BigUint.operator_le (BigUint.ofNat 1 3) (BigUint.ofNat 1 5) = true ∧
      BigUint.operator_ge (BigUint.ofNat 1 3) (BigUint.ofNat 1 5) = true) ∧
    (BigInt.operator_le (BigInt.ofInt 1 (-1)) (BigInt.ofInt 1 0) = true ∧
      BigInt.operator_ge (BigInt.ofInt 1 (-1)) (BigInt.ofInt 1 0) = true) ∧
    (BigFloat.operator_le (⟨true⟩ : BigFloat 52 2 11) ⟨false⟩ = true ∧
      BigFloat.operator_ge (⟨true⟩ : BigFloat 52 2 11) ⟨false⟩ = true) :=
  have h := comparisons_derived 32 52 2 11 (BigUint.ofNat 1 3) (BigUint.ofNat 1 5)
    (BigInt.ofInt 1 (-1)) (BigInt.ofInt 1 0) ⟨true⟩ ⟨false⟩
  ⟨h.1.2.2.2.2 rfl rfl, h.2.1.2.2.2.2 rfl rfl, h.2.2.2.2.2.2 rfl rfl⟩

end Big
